import Mathlib

/-!
Shallow embedding of the Risk & Regime Scoring Engine of the
portfolio-ai repository (src/risk_engine.py, src/market_engine.py,
src/sector_data.py), together with theorems settling the frozen claims
about its specification.

Conventions of the embedding:
* Python floats are modelled as exact rationals (`ℚ`); Python ints as
  `ℕ`/`ℤ`.
* Python dicts with possibly-missing keys read through `.get(key, d)`
  are modelled as structures with `Option` fields read through
  `Option.getD` (risk_engine.py reads every portfolio field this way).
* Python's built-in `round` (round-half-to-even, a.k.a. banker's
  rounding) is modelled exactly on `ℚ` by `pyRound` / `pyRoundTo`.
* Fallible or random code is made explicit: the random draws consumed
  by the simulated-signal fallback become an explicit argument.
-/

namespace PortfolioAI

/-- Python's `round(q)`: round half to even, returning an integer. -/
def pyRound (q : ℚ) : ℤ :=
  let f : ℤ := ⌊q⌋
  let frac : ℚ := q - f
  if frac < 1/2 then f
  else if 1/2 < frac then f + 1
  else if f % 2 = 0 then f else f + 1

/-- Python's `round(q, n)`: round half to even at `n` decimal digits. -/
def pyRoundTo (n : ℕ) (q : ℚ) : ℚ :=
  (pyRound (q * 10 ^ n) : ℚ) / 10 ^ n

/-- Decimal rendering of `n / 10`, as Python's `str` renders the
result of `round(x, 1)` (e.g. `15.0`, `16.7`).  Used only inside alert
message strings, fed with `pyRound (pct * 10)`. -/
def decimalString (n : ℤ) : String :=
  let sign := if n < 0 then "-" else ""
  let a := n.natAbs
  sign ++ toString (a / 10) ++ "." ++ toString (a % 10)

/-- One entry of the portfolio's `holdings` list.  The risk engine
reads only the `value` and `tradingsymbol` keys of each holding dict;
the remaining keys (quantity, prices, pnl, sector, ...) are never
consulted by the code under verification and are omitted. -/
structure Holding where
  tradingsymbol : String
  value : ℚ
deriving DecidableEq, Repr

/-- The portfolio snapshot dict as consumed by risk_engine.py.  Every
field is read with a `.get` default, so each is optional here:
`sector_allocation` defaults to `{}`, `holdings` to `[]`,
`holdings_count` to `0` and `total_value` to `1` (see
`total_value_eff`). -/
structure Portfolio where
  sector_allocation : Option (List (String × ℚ))
  holdings : Option (List Holding)
  holdings_count : Option ℕ
  total_value : Option ℚ
deriving DecidableEq, Repr

/-- Models `portfolio.get('sector_allocation', {})` (risk_engine.py line 12). -/
def sector_alloc_eff (p : Portfolio) : List (String × ℚ) :=
  p.sector_allocation.getD []

/-- Models `portfolio.get('holdings', [])` (risk_engine.py line 13). -/
def holdings_eff (p : Portfolio) : List Holding :=
  p.holdings.getD []

/-- Models `portfolio.get('holdings_count', 0)` (risk_engine.py line 14). -/
def holdings_count_eff (p : Portfolio) : ℕ :=
  p.holdings_count.getD 0

/-- Models `portfolio.get('total_value', 1)` (risk_engine.py line 15 and
line 95): note the default is 1, not 0. -/
def total_value_eff (p : Portfolio) : ℚ :=
  p.total_value.getD 1

/-- Maximum of a list of rationals, 0 on the empty list: models
`max(sector_alloc.values()) if sector_alloc else 0`
(risk_engine.py line 19). -/
def listMax : List ℚ → ℚ
  | [] => 0
  | x :: xs => xs.foldl max x

/-- First key attaining the maximal value: models Python's
`max(sector_alloc, key=sector_alloc.get)` (risk_engine.py line 67),
which returns the first maximal key in iteration order.  Python `max`
raises on an empty dict; the call is guarded by `top_sector_pct > 25`,
which forces a non-empty allocation, so the `[]` case is unreachable
and gets a dummy value. -/
def argmaxKey : List (String × ℚ) → String
  | [] => ""
  | kv :: rest => (rest.foldl (fun best x => if best.2 < x.2 then x else best) kv).1

/-- Insert a holding into a list sorted by `value` descending, after
any element of equal value. -/
def insertDesc (h : Holding) : List Holding → List Holding
  | [] => [h]
  | x :: xs => if x.value < h.value then h :: x :: xs else x :: insertDesc h xs

/-- Stable descending insertion sort by `value`: models
`sorted(holdings, key=lambda x: x['value'], reverse=True)`
(risk_engine.py line 29).  Python's sort is stable; only the multiset
of the top-5 values (hence their sum) is ever consumed downstream, and
that is identical for every correct descending sort. -/
def sortDesc (l : List Holding) : List Holding :=
  l.foldl (fun acc h => insertDesc h acc) []

/-- Models `top_sector_pct` (risk_engine.py line 19). -/
def top_sector_pct (p : Portfolio) : ℚ :=
  listMax ((sector_alloc_eff p).map Prod.snd)

/-- Sector concentration sub-score (risk_engine.py lines 20-25). -/
def sector_risk (p : Portfolio) : ℕ :=
  if top_sector_pct p ≤ 20 then 5
  else if top_sector_pct p ≤ 30 then 15
  else 30

/-- Models `top_5_val = sum(h['value'] for h in sorted_holdings[:5])`
(risk_engine.py line 30). -/
def top_5_val (p : Portfolio) : ℚ :=
  (((sortDesc (holdings_eff p)).take 5).map Holding.value).sum

/-- Models `top_5_pct = (top_5_val / total_value * 100) if total_value > 0 else 0`
(risk_engine.py line 31). -/
def top_5_pct (p : Portfolio) : ℚ :=
  if 0 < total_value_eff p then top_5_val p / total_value_eff p * 100 else 0

/-- Top-5 concentration sub-score (risk_engine.py lines 33-38). -/
def concentration_risk (p : Portfolio) : ℕ :=
  if top_5_pct p ≤ 35 then 8
  else if top_5_pct p ≤ 45 then 18
  else 28

/-- Diversification sub-score (risk_engine.py lines 42-47). -/
def diversification_risk (p : Portfolio) : ℕ :=
  if 25 ≤ holdings_count_eff p then 5
  else if 15 ≤ holdings_count_eff p then 12
  else 18

/-- Models `min(15, int((sector_risk + concentration_risk) * 0.25))`
(risk_engine.py line 51).  The operand is a small non-negative int, so
`x * 0.25` is exact in binary floating point and `int` truncation
equals division by 4 on `ℕ`. -/
def drawdown_risk (p : Portfolio) : ℕ :=
  min 15 ((sector_risk p + concentration_risk p) / 4)

/-- Total risk score (risk_engine.py line 54). -/
def risk_score (p : Portfolio) : ℕ :=
  sector_risk p + concentration_risk p + diversification_risk p + drawdown_risk p

/-- Score label (risk_engine.py lines 57-62). -/
def risk_label (p : Portfolio) : String :=
  if risk_score p ≤ 30 then "Conservative"
  else if risk_score p ≤ 60 then "Moderate"
  else "Aggressive"

/-- Explainability reasons (risk_engine.py lines 65-77). -/
def risk_reasons (p : Portfolio) : List String :=
  let r1 : List String :=
    if 25 < top_sector_pct p then
      let max_sec := argmaxKey (sector_alloc_eff p)
      let pct := pyRound (top_sector_pct p)
      [s!"{max_sec} sector exposure at {pct}%"]
    else []
  let r2 : List String :=
    if 40 < top_5_pct p then
      let pct := pyRound (top_5_pct p)
      [s!"Top 5 stocks control {pct}% of portfolio"]
    else []
  let r3 : List String :=
    if holdings_count_eff p < 15 then
      let n := holdings_count_eff p
      [s!"Low diversification ({n} holdings)"]
    else []
  let rs := r1 ++ r2 ++ r3
  if rs = [] then ["Balanced portfolio structure"] else rs

/-- The `metrics` sub-dict of the result (risk_engine.py lines 83-87). -/
structure Metrics where
  top_sector_pct : ℚ
  top_5_stock_pct : ℚ
  holdings_count : ℕ
deriving DecidableEq, Repr

/-- The result dict of `calculate_risk_score`
(risk_engine.py lines 79-88). -/
structure RiskAssessment where
  risk_score : ℕ
  risk_label : String
  risk_reasons : List String
  metrics : Metrics
deriving DecidableEq, Repr

/-- Models `calculate_risk_score` (risk_engine.py lines 1-88). -/
def calculate_risk_score (p : Portfolio) : RiskAssessment :=
  { risk_score := risk_score p
    risk_label := risk_label p
    risk_reasons := risk_reasons p
    metrics :=
      { top_sector_pct := pyRoundTo 2 (top_sector_pct p)
        top_5_stock_pct := pyRoundTo 2 (top_5_pct p)
        holdings_count := holdings_count_eff p } }

/-- One alert dict produced by `check_concentration_alerts`. -/
structure Alert where
  type : String
  symbol : String
  value : ℚ
  message : String
deriving DecidableEq, Repr

/-- The stock alert built at risk_engine.py lines 102-107. -/
def mkStockAlert (total_val : ℚ) (h : Holding) : Alert :=
  let pct := h.value / total_val * 100
  let r := pyRoundTo 1 pct
  let sym := h.tradingsymbol
  let rs := decimalString (pyRound (pct * 10))
  { type := "stock", symbol := sym, value := r
    message := s!"{sym} is {rs}% of portfolio (>15%)" }

/-- The sector alert built at risk_engine.py lines 112-117. -/
def mkSectorAlert (sector : String) (pct : ℚ) : Alert :=
  let r := pyRoundTo 1 pct
  let rs := decimalString (pyRound (pct * 10))
  { type := "sector", symbol := sector, value := r
    message := s!"{sector} sector is {rs}% of portfolio (>25%)" }

/-- Models `check_concentration_alerts` (risk_engine.py lines 90-119): returns
`[]` when `total_value == 0`; otherwise one stock alert per holding
whose share of `total_val` strictly exceeds 15%, followed by one sector
alert per allocation entry strictly above 25%. -/
def check_concentration_alerts (p : Portfolio) : List Alert :=
  let total_val := p.total_value.getD 1
  if total_val = 0 then []
  else
    ((p.holdings.getD []).filterMap fun h =>
      if 15 < h.value / total_val * 100 then some (mkStockAlert total_val h) else none)
    ++ ((p.sector_allocation.getD []).filterMap fun kv =>
      if 25 < kv.2 then some (mkSectorAlert kv.1 kv.2) else none)

/-! ## Market engine (src/market_engine.py) -/

/-- Trend values `"UP"`, `"DOWN"`, `"STABLE"` used by the signal
dict. -/
inductive Trend
  | UP
  | DOWN
  | STABLE
deriving DecidableEq, Repr

/-- The macro-signal dict.  Every signal dict the module produces
(both the dead live branch and the simulation fallback) carries all of
these keys, so the `.get(key, default)` reads in `determine_regime`
and `get_sector_impacts` are plain field reads here. -/
structure Signals where
  vix : ℚ
  index_drawdown : ℚ
  interest_rates_trend : Trend
  bond_yields_trend : Trend
  oil_prices_trend : Trend
  market_index : ℚ
  is_simulated : Bool
deriving DecidableEq, Repr

/-- The random draws consumed by the simulation fallback of
`fetch_live_signals` (market_engine.py lines 86-116):
`stress_seed = np.random.random()` lies in `[0,1)`; each
`np.random.uniform(a, b)` call is modelled as `a + (b-a)*u` with a
draw `u ∈ [0,1)`; `random.choice(["UP","DOWN","STABLE"])` is the
`oil_choice` draw. -/
structure RandomDraws where
  stress_seed : ℚ
  u1 : ℚ
  u2 : ℚ
  oil_choice : Trend
deriving DecidableEq, Repr

/-- Models `np.random.uniform a b` evaluated at the unit draw `u`. -/
def uniform (a b u : ℚ) : ℚ := a + (b - a) * u

/-- Models `fetch_live_signals` (market_engine.py lines 33-116).  The `try`
block raises unconditionally on its first statement
(`raise ValueError("Force Simulation: ...")`, line 40), so every call
runs the `except` branch, which builds randomized simulated signals;
the initial `sim_vix = 14.0` / `drawdown = 2.0` assignments are
overwritten on every path.  The function is total: it never raises. -/
def fetch_live_signals (r : RandomDraws) : Signals :=
  let branch :=
    if r.stress_seed < 6/10 then
      (uniform 11 16 r.u1, uniform 0 3 r.u2, Trend.STABLE)
    else if r.stress_seed < 9/10 then
      (uniform 17 22 r.u1, uniform 3 8 r.u2, Trend.UP)
    else
      (uniform 23 35 r.u1, uniform 8 15 r.u2, Trend.UP)
  { vix := pyRoundTo 2 branch.1
    index_drawdown := pyRoundTo 2 branch.2.1
    interest_rates_trend := Trend.STABLE
    bond_yields_trend := branch.2.2
    oil_prices_trend := r.oil_choice
    market_index := 24500
    is_simulated := true }

/-- The stress score of `determine_regime`
(market_engine.py lines 134-138): +1 for each stress indicator. -/
def regimeScore (s : Signals) : ℕ :=
  (if 20 < s.vix then 1 else 0)
  + (if 5 < s.index_drawdown then 1 else 0)
  + (if s.interest_rates_trend = Trend.UP then 1 else 0)
  + (if s.bond_yields_trend = Trend.UP then 1 else 0)

/-- Models `determine_regime` (market_engine.py lines 129-142): returns the
regime name and the reason list. -/
def determine_regime (s : Signals) : String × List String :=
  let score := regimeScore s
  if score = 0 then ("NORMAL", ["Market indicators are stable."])
  else if score ≤ 2 then ("ELEVATED_VOLATILITY", ["Volatility or drawdown detected."])
  else ("STAGFLATION_RISK", ["High volatility and negative trend confluence."])

/-- Python dict assignment `d[k] = v` on an insertion-ordered dict:
replace the value in place when the key exists, else append. -/
def dictInsert : List (String × String) → String → String → List (String × String)
  | [], k, v => [(k, v)]
  | (a, b) :: d, k, v => if a = k then (k, v) :: d else (a, b) :: dictInsert d k v

/-- A sequence of dict assignments (also models `dict.update`). -/
def assignAll (d : List (String × String)) (kvs : List (String × String)) :
    List (String × String) :=
  kvs.foldl (fun acc kv => dictInsert acc kv.1 kv.2) d

/-- The regime-driven entries of `get_sector_impacts`
(market_engine.py lines 153-166), keyed by the regime string, with the
`ELEVATED_VOLATILITY` Technology label depending on the bond-yield
trend. -/
def regimeImpacts (regime : String) (bond_yields_trend : Trend) :
    List (String × String) :=
  if regime = "NORMAL" then
    [("Technology", "Positive (Risk On)"),
     ("Financials", "Positive (Credit Growth)"),
     ("Healthcare", "Neutral")]
  else if regime = "ELEVATED_VOLATILITY" then
    [("Technology",
        if bond_yields_trend = Trend.UP then "Negative (Valuation Pressure)" else "Neutral"),
     ("FMCG", "Positive (Defensive Rotation)"),
     ("Pharma", "Positive (Safety)")]
  else
    [("Technology", "Negative (High Risk)"),
     ("Financials", "Negative (NPA Risks)"),
     ("Metals", "Positive (Inflation Hedge)")]

/-- The oil-driven entries of `get_sector_impacts`
(market_engine.py lines 169-172), assigned when
`oil_prices_trend == 'UP'`. -/
def oilImpacts : List (String × String) :=
  [("Oil & Gas", "Positive (Margin Expansion)"),
   ("Paints", "Negative (Input Costs)"),
   ("Aviation", "Negative (Fuel Costs)")]

/-- Models `get_sector_impacts` (market_engine.py lines 144-174): the regime
branch fills the dict first, then the oil-specific entries are
assigned on top when the oil trend is UP. -/
def get_sector_impacts (regime : String) (s : Signals) : List (String × String) :=
  let base := assignAll [] (regimeImpacts regime s.bond_yields_trend)
  if s.oil_prices_trend = Trend.UP then assignAll base oilImpacts else base

/-- Models `MACRO_SECTOR_MAP` (market_engine.py lines 227-251). -/
def MACRO_SECTOR_MAP : List (String × List (String × String)) :=
  [("INTEREST_RATES_UP",
     [("Banking", "Mixed (NIM impact vs Credit growth)"),
      ("Real Estate", "Negative (Higher mortgage rates)"),
      ("Infrastructure", "Negative (Higher cost of debt)"),
      ("FMCG", "Mildly Negative")]),
   ("INFLATION_UP",
     [("FMCG", "Negative (Margin pressure)"),
      ("Energy", "Positive"),
      ("Metals", "Positive"),
      ("IT", "Neutral")]),
   ("OIL_UP",
     [("Aviation", "Negative (Fuel costs)"),
      ("Paints", "Negative (Raw material costs)"),
      ("FMCG", "Negative (Transport costs)"),
      ("Energy", "Positive")]),
   ("CURRENCY_WEAKNESS",
     [("IT Services", "Positive (Export earnings)"),
      ("Pharma", "Positive (Export earnings)"),
      ("Automobile", "Negative (Imported components)")])]

/-- Models `MACRO_SECTOR_MAP[key]`; every access in the source uses a key the
dict literal defines, so the `getD []` default is unreachable. -/
def macroSectorEntry (key : String) : List (String × String) :=
  (MACRO_SECTOR_MAP.lookup key).getD []

/-- The `active_impacts` dict of the effective `get_market_context`
(market_engine.py lines 258-272). -/
def activeImpacts (s : Signals) (regime : String) : List (String × String) :=
  let d0 : List (String × String) := []
  let d1 := if 20 < s.vix then
      dictInsert d0 "General" "High Volatility affects all beta assets" else d0
  let d2 := if s.interest_rates_trend = Trend.UP ∨ s.bond_yields_trend = Trend.UP then
      assignAll d1 (macroSectorEntry "INTEREST_RATES_UP") else d1
  let d3 := if s.oil_prices_trend = Trend.UP then
      assignAll d2 (macroSectorEntry "OIL_UP") else d2
  if d3 = [] ∧ regime = "NORMAL" then
    [("General", "Macro environment is stable.")]
  else d3

/-- The dict returned by the effective `get_market_context`
(market_engine.py lines 274-280). -/
structure MarketContext where
  regime : String
  score : ℕ
  reasons : List String
  signals : Signals
  impact_map : List (String × String)
deriving DecidableEq, Repr

/-- The keys of the dict literal returned by the effective
`get_market_context`, in source order (market_engine.py lines
274-280).  Note: `get_market_context` is defined twice in
market_engine.py; the second definition (lines 253-280) shadows the
first (lines 176-186), so the version with a `timestamp` key is dead
code and the module exports this five-key shape. -/
def marketContextKeys : List String :=
  ["regime", "score", "reasons", "signals", "impact_map"]

/-- The effective `get_market_context` (market_engine.py lines
253-280), parameterized by the signals that `get_macro_signals`
returns (cache/randomness made explicit). -/
def get_market_context (s : Signals) : MarketContext :=
  let rr := determine_regime s
  { regime := rr.1
    score := 0
    reasons := rr.2
    signals := s
    impact_map := activeImpacts s rr.1 }

/-! ## Sector classifier (src/sector_data.py) -/

/-- Models `SECTOR_MAP` (sector_data.py lines 4-98), verbatim. -/
def SECTOR_MAP : List (String × String) :=
  [("TCS", "IT Services"),
   ("INFY", "IT Services"),
   ("HCLTECH", "IT Services"),
   ("WIPRO", "IT Services"),
   ("TECHM", "IT Services"),
   ("LTIM", "IT Services"),
   ("TATATECH", "IT Services"),
   ("HDFCBANK", "Banking"),
   ("ICICIBANK", "Banking"),
   ("KOTAKBANK", "Banking"),
   ("AXISBANK", "Banking"),
   ("INDUSINDBK", "Banking"),
   ("CUB", "Banking"),
   ("IDFCFIRSTB", "Banking"),
   ("SBIN", "Banking"),
   ("PNB", "Banking"),
   ("BANKBARODA", "Banking"),
   ("BAJFINANCE", "Finance"),
   ("BAJAJFINSV", "Finance"),
   ("SBILIFE", "Insurance"),
   ("HDFCLIFE", "Insurance"),
   ("ARMANFIN", "Finance"),
   ("SBICARD", "Finance"),
   ("JIOFIN", "Finance"),
   ("IREDA", "Finance"),
   ("RELIANCE", "Energy"),
   ("ONGC", "Energy"),
   ("BPCL", "Energy"),
   ("IOC", "Energy"),
   ("POWERGRID", "Power"),
   ("NTPC", "Power"),
   ("ADANIGREEN", "Power"),
   ("HINDUNILVR", "FMCG"),
   ("ITC", "FMCG"),
   ("NESTLEIND", "FMCG"),
   ("BRITANNIA", "FMCG"),
   ("TATACONSUM", "FMCG"),
   ("DABUR", "FMCG"),
   ("MARUTI", "Automobile"),
   ("TATAMOTORS", "Automobile"),
   ("M&M", "Automobile"),
   ("BAJAJ-AUTO", "Automobile"),
   ("EICHERMOT", "Automobile"),
   ("HEROMOTOCO", "Automobile"),
   ("TATASTEEL", "Metals"),
   ("HINDALCO", "Metals"),
   ("JSWSTEEL", "Metals"),
   ("COALINDIA", "Mining"),
   ("LT", "Construction"),
   ("ULTRACEMCO", "Cement"),
   ("ADANIENT", "Diversified"),
   ("ADANIPORTS", "Infrastructure"),
   ("CGPOWER", "Engineering"),
   ("SUNPHARMA", "Pharma"),
   ("DRREDDY", "Pharma"),
   ("CIPLA", "Pharma"),
   ("DIVISLAB", "Pharma"),
   ("BHARTIARTL", "Telecom"),
   ("TATACOMM", "Telecom"),
   ("TITAN", "Consumer Durables"),
   ("ASIANPAINT", "Paints"),
   ("INDIGOPNTS", "Paints"),
   ("PVRINOX", "Media & Entertainment"),
   ("NIFTYBEES", "ETF"),
   ("ITBEES", "ETF"),
   ("MID150BEES", "ETF"),
   ("SENSEXBEES", "ETF"),
   ("LIQUIDCASE", "Liquid Fund")]

/-- Models `symbol.split('-')[0]` (sector_data.py line 103): the
prefix of the symbol before the first hyphen (the whole symbol when it
has none). -/
def cleanSymbol (s : String) : String :=
  String.mk (s.data.takeWhile (fun c => c ≠ '-'))

/-- Models `get_sector` (sector_data.py lines 100-104). -/
def get_sector (symbol : String) : String :=
  (SECTOR_MAP.lookup (cleanSymbol symbol)).getD "Other"

/-! ## Concrete inputs used by the claim theorems -/

/-- A portfolio with explicit defaults substituted for every missing
field, following the `.get` defaults of risk_engine.py: `{}` for
`sector_allocation`, `[]` for `holdings`, `0` for `holdings_count` and
`1` for `total_value`. -/
def defaultedPortfolio (p : Portfolio) : Portfolio :=
  ⟨some (sector_alloc_eff p), some (holdings_eff p),
   some (holdings_count_eff p), some (total_value_eff p)⟩

/-- A portfolio with `total_value = 0` but a dominant sector
allocation and a large holdings count. -/
def c1p : Portfolio := ⟨some [("IT", 50)], some [], some 30, some 0⟩

/-- A portfolio with empty holdings but positive total value and a
sector above the 25% alert threshold. -/
def c1q : Portfolio := ⟨some [("IT", 50)], some [], some 0, some 100⟩

/-- The fully empty (disconnected) portfolio snapshot. -/
def c1w : Portfolio := ⟨some [], some [], some 0, some 0⟩

/-- The end-to-end scenario portfolio: sectors `{IT:40, Banking:30,
Other:30}`, ten holdings of equal value 10, total value 100 (so the
top five holdings control exactly 50%). -/
def c2p : Portfolio :=
  ⟨some [("IT", 40), ("Banking", 30), ("Other", 30)],
   some [⟨"S1", 10⟩, ⟨"S2", 10⟩, ⟨"S3", 10⟩, ⟨"S4", 10⟩, ⟨"S5", 10⟩,
         ⟨"S6", 10⟩, ⟨"S7", 10⟩, ⟨"S8", 10⟩, ⟨"S9", 10⟩, ⟨"S10", 10⟩],
   some 10, some 100⟩

/-- A small portfolio with one stock above 15% and one sector above
25%. -/
def c6p : Portfolio := ⟨some [("IT", 26)], some [⟨"BIG", 20⟩], some 1, some 100⟩

/-- Signals with the oil trend UP and everything else quiet. -/
def c7s : Signals := ⟨0, 0, Trend.STABLE, Trend.STABLE, Trend.UP, 0, false⟩

/-! ## Helper lemmas -/

/-- A filterMap whose function is an if-some-else-none guard is a
filter followed by a map. -/
theorem filterMap_guard {α β : Type} (p : α → Prop) [DecidablePred p] (f : α → β) (l : List α) :
    (l.filterMap fun a => if p a then some (f a) else none)
      = (l.filter fun a => decide (p a)).map f := by
  induction l with
  | nil => rfl
  | cons a as ih => by_cases h : p a <;> simp [List.filterMap_cons, List.filter_cons, h, ih]

/-- Rounding half to even never goes below the floor. -/
theorem le_pyRound (q : ℚ) : ⌊q⌋ ≤ pyRound q := by
  simp only [pyRound]; split_ifs <;> omega

/-- Rounding half to even never exceeds the floor plus one. -/
theorem pyRound_le_floor_add_one (q : ℚ) : pyRound q ≤ ⌊q⌋ + 1 := by
  simp only [pyRound]; split_ifs <;> omega

/-- Two-digit rounding respects an integer lower bound. -/
theorem pyRoundTo2_lb (a : ℤ) (q : ℚ) (h : (a : ℚ) ≤ q) : (a : ℚ) ≤ pyRoundTo 2 q := by
  unfold pyRoundTo
  rw [le_div_iff₀ (by norm_num : (0:ℚ) < (10:ℚ) ^ 2)]
  have h1 : a * 100 ≤ ⌊q * 10 ^ 2⌋ := Int.le_floor.mpr (by push_cast; nlinarith)
  have h3 : (a * 100 : ℤ) ≤ pyRound (q * 10 ^ 2) := le_trans h1 (le_pyRound _)
  calc (a : ℚ) * 10 ^ 2 = ((a * 100 : ℤ) : ℚ) := by push_cast; ring
    _ ≤ ((pyRound (q * 10 ^ 2) : ℤ) : ℚ) := by exact_mod_cast h3

/-- Two-digit rounding respects a strict integer upper bound. -/
theorem pyRoundTo2_ub (b : ℤ) (q : ℚ) (h : q < (b : ℚ)) : pyRoundTo 2 q ≤ (b : ℚ) := by
  unfold pyRoundTo
  rw [div_le_iff₀ (by norm_num : (0:ℚ) < (10:ℚ) ^ 2)]
  have h1 : ⌊q * 10 ^ 2⌋ < b * 100 := by
    rw [Int.floor_lt]; push_cast; nlinarith
  have h3 : pyRound (q * 10 ^ 2) ≤ b * 100 := by
    have := pyRound_le_floor_add_one (q * 10 ^ 2); omega
  calc ((pyRound (q * 10 ^ 2) : ℤ) : ℚ) ≤ ((b * 100 : ℤ) : ℚ) := by exact_mod_cast h3
    _ = (b : ℚ) * 10 ^ 2 := by push_cast; ring

/-- A uniform draw stays at or above the lower end of its interval. -/
theorem uniform_lb (a b u : ℚ) (hab : a ≤ b) (hu : 0 ≤ u) : a ≤ uniform a b u := by
  unfold uniform; nlinarith

/-- A uniform draw stays strictly below the upper end of its
interval. -/
theorem uniform_lt_ub (a b u : ℚ) (hab : a < b) (hu : u < 1) : uniform a b u < b := by
  unfold uniform; nlinarith

/-- The rounded uniform draw of the simulation stays inside the closed
interval of its parameters. -/
theorem pyRound_uniform_bounds (a b : ℤ) (u : ℚ) (hab : (a : ℚ) < (b : ℚ))
    (h0 : 0 ≤ u) (h1 : u < 1) :
    (a : ℚ) ≤ pyRoundTo 2 (uniform a b u) ∧ pyRoundTo 2 (uniform a b u) ≤ (b : ℚ) :=
  ⟨pyRoundTo2_lb a _ (uniform_lb _ _ _ (le_of_lt hab) h0),
   pyRoundTo2_ub b _ (uniform_lt_ub _ _ _ hab h1)⟩

/-! ## Claim theorems -/

/-- Claim C1, counterexample: the claim quantifies over every
portfolio with `total_value = 0` or empty holdings, but `c1p`
(total value 0, sector allocation `{IT: 50}`, 30 holdings counted)
gets `sector_risk = 30` (not 5), `diversification_risk = 5` (not 18)
and total score 52 (not 34); and `c1q` (empty holdings, total value
100, sector at 50%) gets a non-empty alert list. -/
theorem C1_counterexample :
    total_value_eff c1p = 0 ∧ sector_risk c1p = 30 ∧ diversification_risk c1p = 5
    ∧ risk_score c1p = 52
    ∧ holdings_eff c1q = [] ∧ check_concentration_alerts c1q ≠ [] := by
  refine ⟨by norm_num [total_value_eff, c1p], ?_, ?_, ?_, by norm_num [holdings_eff, c1q], ?_⟩
  · norm_num [sector_risk, top_sector_pct, sector_alloc_eff, c1p, listMax]
  · norm_num [diversification_risk, holdings_count_eff, c1p]
  · norm_num [risk_score, sector_risk, concentration_risk, diversification_risk, drawdown_risk,
      top_sector_pct, top_5_pct, total_value_eff, sector_alloc_eff, holdings_eff,
      holdings_count_eff, top_5_val, listMax, sortDesc, c1p]
  · norm_num [check_concentration_alerts, c1q, List.filterMap_cons]

/-- Claim C1, amended: for every portfolio with `total_value = 0` or
empty holdings, `concentration_risk = 8`; if moreover the sector
allocation is empty and `holdings_count < 15`, then `sector_risk = 5`,
`diversification_risk = 18`, `drawdown_risk = 3`, total 34 with label
Moderate; and whenever `total_value = 0` the alert list is empty. -/
theorem C1_empty_amended (p : Portfolio)
    (h : total_value_eff p = 0 ∨ holdings_eff p = []) :
    concentration_risk p = 8
    ∧ (sector_alloc_eff p = [] → holdings_count_eff p < 15 →
        sector_risk p = 5 ∧ diversification_risk p = 18 ∧ drawdown_risk p = 3
        ∧ risk_score p = 34 ∧ risk_label p = "Moderate")
    ∧ (total_value_eff p = 0 → check_concentration_alerts p = []) := by
  have hpct : top_5_pct p = 0 := by
    rcases h with h | h
    · unfold top_5_pct; rw [h]; norm_num
    · unfold top_5_pct top_5_val; rw [h]; simp [sortDesc]
  have hcr : concentration_risk p = 8 := by unfold concentration_risk; rw [hpct]; norm_num
  refine ⟨hcr, ?_, ?_⟩
  · intro hsa hcnt
    have hts : top_sector_pct p = 0 := by simp [top_sector_pct, hsa, listMax]
    have hsr : sector_risk p = 5 := by unfold sector_risk; rw [hts]; norm_num
    have hdv : diversification_risk p = 18 := by unfold diversification_risk; split_ifs <;> omega
    have hdd : drawdown_risk p = 3 := by unfold drawdown_risk; rw [hsr, hcr]; decide
    have hrs : risk_score p = 34 := by unfold risk_score; rw [hsr, hcr, hdv, hdd]
    refine ⟨hsr, hdv, hdd, hrs, ?_⟩
    unfold risk_label; rw [hrs]; norm_num
  · intro h0
    unfold check_concentration_alerts
    rw [show p.total_value.getD 1 = total_value_eff p from rfl, h0]
    simp

/-- Claim C1, witness: the amended theorem applied to the all-empty
portfolio gives score 34, label Moderate and no alerts. -/
theorem C1_empty_witness :
    risk_score c1w = 34 ∧ risk_label c1w = "Moderate"
    ∧ check_concentration_alerts c1w = [] := by
  have h := C1_empty_amended c1w (Or.inl (by norm_num [total_value_eff, c1w]))
  have h2 := h.2.1 (by norm_num [sector_alloc_eff, c1w]) (by norm_num [holdings_count_eff, c1w])
  exact ⟨h2.2.2.2.1, h2.2.2.2.2, h.2.2 (by norm_num [total_value_eff, c1w])⟩

/-- Claim C2: a portfolio with sector allocation `{IT:40, Banking:30,
Other:30}`, ten holdings and top-5 value exactly half of a positive
total gets sector risk 30, concentration risk 28, diversification risk
18, drawdown risk 14, total 90 labelled Aggressive, and exactly the
three expected reason lines. -/
theorem C2_end_to_end (p : Portfolio)
    (hs : p.sector_allocation = some [("IT", 40), ("Banking", 30), ("Other", 30)])
    (hc : p.holdings_count = some 10)
    (ht : 0 < total_value_eff p)
    (h5 : top_5_val p * 2 = total_value_eff p) :
    sector_risk p = 30 ∧ concentration_risk p = 28 ∧ diversification_risk p = 18
    ∧ drawdown_risk p = 14 ∧ risk_score p = 90 ∧ risk_label p = "Aggressive"
    ∧ risk_reasons p = ["IT sector exposure at 40%",
        "Top 5 stocks control 50% of portfolio",
        "Low diversification (10 holdings)"] := by
  have htop : top_sector_pct p = 40 := by
    norm_num [top_sector_pct, sector_alloc_eff, hs, listMax, List.foldl, max_def]
  have hpct : top_5_pct p = 50 := by
    unfold top_5_pct
    rw [if_pos ht]
    have hne : total_value_eff p ≠ 0 := ne_of_gt ht
    field_simp
    linarith
  have hsr : sector_risk p = 30 := by unfold sector_risk; rw [htop]; norm_num
  have hcr : concentration_risk p = 28 := by unfold concentration_risk; rw [hpct]; norm_num
  have hdv : diversification_risk p = 18 := by
    norm_num [diversification_risk, holdings_count_eff, hc]
  have hdd : drawdown_risk p = 14 := by unfold drawdown_risk; rw [hsr, hcr]; decide
  have hrs : risk_score p = 90 := by unfold risk_score; rw [hsr, hcr, hdv, hdd]
  refine ⟨hsr, hcr, hdv, hdd, hrs, by unfold risk_label; rw [hrs]; norm_num, ?_⟩
  unfold risk_reasons
  rw [htop, hpct]
  norm_num [holdings_count_eff, hc, argmaxKey, sector_alloc_eff, hs, pyRound]
  decide

/-- Claim C2, witness: the scenario realized with ten equal holdings
of value 10 and total value 100. -/
theorem C2_end_to_end_witness :
    risk_score c2p = 90 ∧ risk_label c2p = "Aggressive"
    ∧ risk_reasons c2p = ["IT sector exposure at 40%",
        "Top 5 stocks control 50% of portfolio",
        "Low diversification (10 holdings)"] := by
  have h := C2_end_to_end c2p rfl rfl
    (by norm_num [total_value_eff, c2p])
    (by norm_num [top_5_val, sortDesc, insertDesc, holdings_eff, c2p, total_value_eff])
  exact ⟨h.2.2.2.2.1, h.2.2.2.2.2.1, h.2.2.2.2.2.2⟩

/-- Claim C3: the regime score adds one point per stress indicator and
stays at most 4; the regime string is NORMAL exactly at score 0,
ELEVATED_VOLATILITY exactly at scores 1-2, STAGFLATION_RISK exactly at
scores 3-4; the two boundary signal sets of the spec classify as
ELEVATED_VOLATILITY and STAGFLATION_RISK respectively. -/
theorem C3_regime_mapping (s : Signals) :
    regimeScore s ≤ 4
    ∧ ((determine_regime s).1 = "NORMAL" ↔ regimeScore s = 0)
    ∧ ((determine_regime s).1 = "ELEVATED_VOLATILITY" ↔ regimeScore s = 1 ∨ regimeScore s = 2)
    ∧ ((determine_regime s).1 = "STAGFLATION_RISK" ↔ regimeScore s = 3 ∨ regimeScore s = 4)
    ∧ (determine_regime ⟨21, 0, Trend.STABLE, Trend.STABLE, Trend.STABLE, 24500, true⟩).1
        = "ELEVATED_VOLATILITY"
    ∧ (determine_regime ⟨21, 6, Trend.UP, Trend.UP, Trend.STABLE, 24500, true⟩).1
        = "STAGFLATION_RISK" := by
  have h4 : regimeScore s ≤ 4 := by unfold regimeScore; split_ifs <;> decide
  have hcases : regimeScore s = 0 ∨ regimeScore s = 1 ∨ regimeScore s = 2
      ∨ regimeScore s = 3 ∨ regimeScore s = 4 := by omega
  refine ⟨h4, ?_, ?_, ?_,
    by norm_num [determine_regime, regimeScore]; decide,
    by norm_num [determine_regime, regimeScore]⟩ <;>
    (rcases hcases with h | h | h | h | h <;> simp [determine_regime, h])

/-- Claim C4, counterexample: when the regeneration fallback runs with
stress seed 0.95 (and zero uniform draws) it returns vix 23 with the
bond-yield trend UP, not the fixed neutral default of vix 15 with all
trends STABLE. -/
theorem C4_counterexample :
    (fetch_live_signals ⟨19/20, 0, 0, Trend.STABLE⟩).vix ≠ 15
    ∧ (fetch_live_signals ⟨19/20, 0, 0, Trend.STABLE⟩).bond_yields_trend ≠ Trend.STABLE := by
  constructor
  · norm_num [fetch_live_signals, uniform, pyRoundTo, pyRound]
  · norm_num [fetch_live_signals]
    decide

/-- Claim C4, amended: the fallback never raises (it is a total
function of its random draws) but returns randomized simulated
signals, not a fixed neutral default: the interest-rate trend is
always STABLE, `is_simulated` is set, the market index is 24500, the
bond-yield trend is never DOWN, vix lies in `[11, 35]` and the index
drawdown in `[0, 15]`. -/
theorem C4_fallback_amended (r : RandomDraws)
    (hu1 : 0 ≤ r.u1) (hu1' : r.u1 < 1) (hu2 : 0 ≤ r.u2) (hu2' : r.u2 < 1) :
    (fetch_live_signals r).interest_rates_trend = Trend.STABLE
    ∧ (fetch_live_signals r).is_simulated = true
    ∧ (fetch_live_signals r).market_index = 24500
    ∧ (fetch_live_signals r).bond_yields_trend ≠ Trend.DOWN
    ∧ (11 : ℚ) ≤ (fetch_live_signals r).vix ∧ (fetch_live_signals r).vix ≤ 35
    ∧ (0 : ℚ) ≤ (fetch_live_signals r).index_drawdown
    ∧ (fetch_live_signals r).index_drawdown ≤ 15 := by
  unfold fetch_live_signals
  split_ifs with h1 h2
  · have hv := pyRound_uniform_bounds 11 16 r.u1 (by norm_num) hu1 hu1'
    have hd := pyRound_uniform_bounds 0 3 r.u2 (by norm_num) hu2 hu2'
    push_cast at hv hd
    refine ⟨rfl, rfl, rfl, by simp, ?_, ?_, ?_, ?_⟩
    · show (11 : ℚ) ≤ pyRoundTo 2 (uniform 11 16 r.u1); linarith [hv.1]
    · show pyRoundTo 2 (uniform 11 16 r.u1) ≤ 35; linarith [hv.2]
    · show (0 : ℚ) ≤ pyRoundTo 2 (uniform 0 3 r.u2); linarith [hd.1]
    · show pyRoundTo 2 (uniform 0 3 r.u2) ≤ 15; linarith [hd.2]
  · have hv := pyRound_uniform_bounds 17 22 r.u1 (by norm_num) hu1 hu1'
    have hd := pyRound_uniform_bounds 3 8 r.u2 (by norm_num) hu2 hu2'
    push_cast at hv hd
    refine ⟨rfl, rfl, rfl, by simp, ?_, ?_, ?_, ?_⟩
    · show (11 : ℚ) ≤ pyRoundTo 2 (uniform 17 22 r.u1); linarith [hv.1]
    · show pyRoundTo 2 (uniform 17 22 r.u1) ≤ 35; linarith [hv.2]
    · show (0 : ℚ) ≤ pyRoundTo 2 (uniform 3 8 r.u2); linarith [hd.1]
    · show pyRoundTo 2 (uniform 3 8 r.u2) ≤ 15; linarith [hd.2]
  · have hv := pyRound_uniform_bounds 23 35 r.u1 (by norm_num) hu1 hu1'
    have hd := pyRound_uniform_bounds 8 15 r.u2 (by norm_num) hu2 hu2'
    push_cast at hv hd
    refine ⟨rfl, rfl, rfl, by simp, ?_, ?_, ?_, ?_⟩
    · show (11 : ℚ) ≤ pyRoundTo 2 (uniform 23 35 r.u1); linarith [hv.1]
    · show pyRoundTo 2 (uniform 23 35 r.u1) ≤ 35; linarith [hv.2]
    · show (0 : ℚ) ≤ pyRoundTo 2 (uniform 8 15 r.u2); linarith [hd.1]
    · show pyRoundTo 2 (uniform 8 15 r.u2) ≤ 15; linarith [hd.2]

/-- Claim C4, witness: the amended theorem at the calm draw
`(0.5, 0, 0, STABLE)`. -/
theorem C4_fallback_witness :
    (fetch_live_signals ⟨1/2, 0, 0, Trend.STABLE⟩).interest_rates_trend = Trend.STABLE
    ∧ (fetch_live_signals ⟨1/2, 0, 0, Trend.STABLE⟩).is_simulated = true
    ∧ (fetch_live_signals ⟨1/2, 0, 0, Trend.STABLE⟩).market_index = 24500
    ∧ (fetch_live_signals ⟨1/2, 0, 0, Trend.STABLE⟩).bond_yields_trend ≠ Trend.DOWN
    ∧ (11 : ℚ) ≤ (fetch_live_signals ⟨1/2, 0, 0, Trend.STABLE⟩).vix
    ∧ (fetch_live_signals ⟨1/2, 0, 0, Trend.STABLE⟩).vix ≤ 35
    ∧ (0 : ℚ) ≤ (fetch_live_signals ⟨1/2, 0, 0, Trend.STABLE⟩).index_drawdown
    ∧ (fetch_live_signals ⟨1/2, 0, 0, Trend.STABLE⟩).index_drawdown ≤ 15 :=
  C4_fallback_amended ⟨1/2, 0, 0, Trend.STABLE⟩
    (by norm_num) (by norm_num) (by norm_num) (by norm_num)

/-- Claim C5, counterexample: a portfolio whose `total_value` key is
missing does not behave as if `total_value` were 0 — the missing key
defaults to 1, so a holding of value 1 becomes 100% of the portfolio
and alerts, while an explicit 0 yields no alerts. -/
theorem C5_counterexample :
    check_concentration_alerts ⟨some [], some [⟨"X", 1⟩], some 1, none⟩ ≠
      check_concentration_alerts ⟨some [], some [⟨"X", 1⟩], some 1, some 0⟩ := by
  norm_num [check_concentration_alerts, List.filterMap_cons, mkStockAlert]

/-- Claim C5, amended: absent fields are read through fixed defaults —
`{}` for the sector allocation, `[]` for holdings, 0 for the holdings
count, and 1 (not 0) for `total_value`; both scoring operations are
total and produce on any portfolio exactly what they produce on its
explicitly-defaulted completion. -/
theorem C5_missing_fields_amended (p : Portfolio) :
    calculate_risk_score p = calculate_risk_score (defaultedPortfolio p)
    ∧ check_concentration_alerts p = check_concentration_alerts (defaultedPortfolio p) :=
  ⟨rfl, rfl⟩

/-- Claim C6: with a present positive total value the alert list is
exactly the holdings filtered at the strict 15% threshold (mapped to
stock alerts) followed by the sector entries filtered at the strict
25% threshold (mapped to sector alerts); with `total_value = 0` it is
empty; and in a concrete portfolio a holding at exactly 15% stays
silent while one at 15.01% alerts. -/
theorem C6_alert_thresholds :
    (∀ (p : Portfolio) (t : ℚ), p.total_value = some t → 0 < t →
      check_concentration_alerts p =
        ((holdings_eff p).filter fun h => decide (15 < h.value / t * 100)).map (mkStockAlert t)
        ++ ((sector_alloc_eff p).filter fun kv => decide (25 < kv.2)).map
            (fun kv => mkSectorAlert kv.1 kv.2))
    ∧ (∀ p : Portfolio, p.total_value = some 0 → check_concentration_alerts p = [])
    ∧ check_concentration_alerts
        ⟨some [], some [⟨"EXACT15", 1500⟩, ⟨"ABOVE15", 1501⟩], some 2, some 10000⟩
      = [mkStockAlert 10000 ⟨"ABOVE15", 1501⟩] := by
  refine ⟨?_, ?_, ?_⟩
  · intro p t hpt ht
    unfold check_concentration_alerts
    rw [hpt]
    simp only [Option.getD_some]
    rw [if_neg (by exact ne_of_gt ht)]
    rw [filterMap_guard (fun h : Holding => 15 < h.value / t * 100) (mkStockAlert t),
        filterMap_guard (fun kv : String × ℚ => 25 < kv.2)
          (fun kv : String × ℚ => mkSectorAlert kv.1 kv.2)]
    rfl
  · intro p hpt
    unfold check_concentration_alerts
    rw [hpt]
    simp
  · norm_num [check_concentration_alerts, List.filterMap_cons]

/-- Claim C6, witness: the characterization applied to a concrete
portfolio with one stock above 15% and one sector above 25%. -/
theorem C6_alert_thresholds_witness :
    check_concentration_alerts c6p =
      ((holdings_eff c6p).filter fun h => decide (15 < h.value / 100 * 100)).map (mkStockAlert 100)
      ++ ((sector_alloc_eff c6p).filter fun kv => decide (25 < kv.2)).map
          (fun kv => mkSectorAlert kv.1 kv.2) :=
  C6_alert_thresholds.1 c6p 100 rfl (by norm_num)

/-- Claim C7: in `get_sector_impacts`, every regime-driven entry
survives into the merged impact map unchanged (the oil-driven pass
never overrides it), and when the oil trend is UP the merge adds the
`Oil & Gas` sector, which no regime branch covers. -/
theorem C7_impact_merge (regime : String) (s : Signals) :
    (∀ kv : String × String, kv ∈ regimeImpacts regime s.bond_yields_trend →
      (get_sector_impacts regime s).lookup kv.1 = some kv.2)
    ∧ (s.oil_prices_trend = Trend.UP →
        (get_sector_impacts regime s).lookup "Oil & Gas" = some "Positive (Margin Expansion)"
        ∧ "Oil & Gas" ∉ (regimeImpacts regime s.bond_yields_trend).map Prod.fst) := by
  obtain ⟨v, dd, irt, byt, opt, mi, sim⟩ := s
  by_cases h1 : regime = "NORMAL"
  · subst h1; cases byt <;> cases opt <;>
      dsimp only [get_sector_impacts, regimeImpacts] <;> decide
  · by_cases h2 : regime = "ELEVATED_VOLATILITY"
    · subst h2; cases byt <;> cases opt <;>
        dsimp only [get_sector_impacts, regimeImpacts] <;> decide
    · cases byt <;> cases opt <;>
        simp only [get_sector_impacts, regimeImpacts, h1, h2, if_false] <;>
        decide

/-- Claim C7, witness: in the NORMAL regime with the oil trend UP, the
Technology entry keeps its regime-driven label and `Oil & Gas` is
added. -/
theorem C7_impact_merge_witness :
    (get_sector_impacts "NORMAL" c7s).lookup "Technology" = some "Positive (Risk On)"
    ∧ (get_sector_impacts "NORMAL" c7s).lookup "Oil & Gas" = some "Positive (Margin Expansion)" :=
  ⟨(C7_impact_merge "NORMAL" c7s).1 ("Technology", "Positive (Risk On)") (by decide),
   ((C7_impact_merge "NORMAL" c7s).2 rfl).1⟩

/-- Claim C8, counterexample: the key list of the dict returned by the
effective `get_market_context` is not the claimed
`regime/signals/impact_map/timestamp` shape — in particular no
`timestamp` key exists (the definition carrying one is shadowed by the
second definition of the same name). -/
theorem C8_counterexample :
    marketContextKeys ≠ ["regime", "signals", "impact_map", "timestamp"]
    ∧ "timestamp" ∉ marketContextKeys := by decide

/-- Claim C8, amended: the market-context mapping contains exactly the
fields `regime` (one of the three regime strings), `score`, `reasons`,
`signals` and `impact_map`, with no timestamp. -/
theorem C8_context_fields_amended (s : Signals) :
    ((get_market_context s).regime = "NORMAL"
      ∨ (get_market_context s).regime = "ELEVATED_VOLATILITY"
      ∨ (get_market_context s).regime = "STAGFLATION_RISK")
    ∧ (get_market_context s).signals = s
    ∧ (get_market_context s).score = 0
    ∧ marketContextKeys = ["regime", "score", "reasons", "signals", "impact_map"] := by
  refine ⟨?_, rfl, rfl, rfl⟩
  simp only [get_market_context, determine_regime]
  split_ifs <;> simp

/-- Claim C9: for every portfolio the total risk score lies between 21
and 90 inclusive, and the drawdown component never reaches its stated
15-point cap (it is at most 14). -/
theorem C9_score_range (p : Portfolio) :
    21 ≤ risk_score p ∧ risk_score p ≤ 90 ∧ drawdown_risk p ≤ 14 := by
  have hs : sector_risk p = 5 ∨ sector_risk p = 15 ∨ sector_risk p = 30 := by
    unfold sector_risk; split_ifs <;> simp
  have hc : concentration_risk p = 8 ∨ concentration_risk p = 18 ∨ concentration_risk p = 28 := by
    unfold concentration_risk; split_ifs <;> simp
  have hd : diversification_risk p = 5 ∨ diversification_risk p = 12 ∨ diversification_risk p = 18 := by
    unfold diversification_risk; split_ifs <;> simp
  unfold risk_score drawdown_risk
  rcases hs with h | h | h <;> rcases hc with h' | h' | h' <;> rcases hd with h'' | h'' | h'' <;>
    rw [h, h', h''] <;> decide

/-- Claim C10: the public sector lookup consults only the prefix of
the symbol before the first hyphen, that prefix never contains a
hyphen, so hyphenated table keys are unreachable: `BAJAJ-AUTO` resolves
to `Other` even though the table itself maps the key `BAJAJ-AUTO` to
`Automobile`. -/
theorem C10_hyphen_lookup :
    (∀ s : String, get_sector s = (SECTOR_MAP.lookup (cleanSymbol s)).getD "Other")
    ∧ (∀ s k : String, '-' ∈ k.data → cleanSymbol s ≠ k)
    ∧ get_sector "BAJAJ-AUTO" = "Other"
    ∧ SECTOR_MAP.lookup "BAJAJ-AUTO" = some "Automobile" := by
  refine ⟨fun s => rfl, ?_, by decide, by decide⟩
  intro s k hk he
  rw [← he] at hk
  have := List.mem_takeWhile_imp (l := s.data) (p := fun c => c ≠ '-') hk
  simp at this

/-- Claim C10, witness: the cleaned symbol of `BAJAJ-AUTO` is not
`BAJAJ-AUTO` itself, so the hyphenated table entry cannot be hit. -/
theorem C10_hyphen_lookup_witness :
    cleanSymbol "BAJAJ-AUTO" ≠ "BAJAJ-AUTO" :=
  C10_hyphen_lookup.2.1 "BAJAJ-AUTO" "BAJAJ-AUTO" (by decide)

end PortfolioAI
